import Mathlib

/-!
Verification of the sentinel3-sral-demo core against its specification.

The development shallowly embeds the two core modules of the repository:

* `src/connectors/eumdac_connector.py` — the authenticated-session manager
  (`EumdacConnector`: credential loading, token refresh, catalog handle
  caching) and the parallel product-acquisition pipeline
  (`download_products`, `_unzip_product`, `_remove_zip`, `_process_product`);
* `src/processors/zarr_processor.py` — the partitioned-store ingestion step
  (`ZarrProcessor`: `collection`, `_open_or_create_collection`,
  `netcdf_2_zarr`);
* `utils/singleton.py` — the `SingletonMeta` metaclass.

External effects (network token exchange, file opening, archive extraction,
dask cluster start-up) are modelled as explicit events or counters so the
theorems can speak about what I/O a call performs and in which order.
Machine-level details (actual bytes of NetCDF files) are abstracted: a
dataset is represented by the list of its axis-coordinate values, which is
the only part of a dataset the ordering properties depend on.
-/

/-! ## String helpers

Python's `str.startswith` and the `in` substring test, modelled on the
character lists underlying the strings so that they are computable by the
kernel. -/

/-- Model of Python `file.startswith(pid)`. -/
def str_startswith (s p : String) : Bool := p.toList.isPrefixOf s.toList

/-- Model of Python `pat in s` (substring containment). -/
def str_contains (s pat : String) : Bool :=
  (List.range (s.toList.length + 1)).any (fun i => pat.toList.isPrefixOf (s.toList.drop i))

/-- Model of Python `os.path.join(a, b)`. -/
def path_join (a b : String) : String := a ++ "/" ++ b

/-! ## Access tokens and catalog handles

`eumdac.AccessToken` and `eumdac.DataStore` are external objects; the
embedding keeps the one attribute the connector reads (`expiration`) and a
`mintId` / `handleId` drawn from a per-connector fresh counter so that
object identity ("the same instance") is expressible. Timestamps are
integers (e.g. seconds); `datetime.now()` is passed in explicitly as `now`,
and the expiration the remote API would stamp on a freshly minted token is
passed in as `newExp`. -/

/-- An `eumdac.AccessToken`: its expiration date and an identity tag for the
minted instance. -/
structure AccessToken where
  expiration : Int
  mintId : Nat
deriving Repr, DecidableEq

/-- An `eumdac.DataStore` handle: the identity of the token it was built
from, and its own instance identity. -/
structure DataStore where
  boundTokenId : Nat
  handleId : Nat
deriving Repr, DecidableEq

/-- The mutable state of an `EumdacConnector` relevant to token refresh and
datastore caching: `_refresh_token_margin_mn`, `_token`, `_datastore`, plus
the fresh-identity counter used to model object creation. -/
structure EumdacConnector where
  refresh_token_margin_mn : Int
  token : Option AccessToken
  datastoreH : Option DataStore
  nextId : Nat
deriving Repr, DecidableEq

/-- The guard of `refresh_token`: `(self._token is None) or
(self._token.expiration < refresh_date)` with
`refresh_date = datetime.now() + self._refresh_token_margin_mn`. -/
def tokenNeedsRefresh (now : Int) (c : EumdacConnector) : Bool :=
  match c.token with
  | none => true
  | some t => decide (t.expiration < now + c.refresh_token_margin_mn)

/-- `EumdacConnector.refresh_token`: mints a new token when none is held or
the held one expires before `now + margin`; returns the `is_refreshed`
flag together with the updated connector state. -/
def refresh_token (now newExp : Int) (c : EumdacConnector) : Bool × EumdacConnector :=
  if tokenNeedsRefresh now c then
    (true, { c with token := some ⟨newExp, c.nextId⟩, nextId := c.nextId + 1 })
  else
    (false, c)

/-- `EumdacConnector.datastore` property: refreshes the token if needed,
rebuilds the `DataStore` handle when none is cached or the token was just
refreshed, and otherwise returns the cached handle. -/
def datastore (now newExp : Int) (c : EumdacConnector) : DataStore × EumdacConnector :=
  let r := refresh_token now newExp c
  let c1 := r.2
  if c1.datastoreH.isNone || r.1 then
    let tokId : Nat := match c1.token with | some t => t.mintId | none => 0
    let ds : DataStore := ⟨tokId, c1.nextId⟩
    (ds, { c1 with datastoreH := some ds, nextId := c1.nextId + 1 })
  else
    (c1.datastoreH.getD ⟨0, 0⟩, c1)

/-! ## C1: token refresh condition -/

/-- C1: `refresh_token()` returns true iff no token is held or the held
token's expiration is earlier than `now + margin`; when it returns false
the connector (in particular the held token instance) is unchanged. -/
theorem refresh_token_iff (now newExp : Int) (c : EumdacConnector) :
    ((refresh_token now newExp c).1 = true ↔
      c.token = none ∨ ∃ t, c.token = some t ∧
        t.expiration < now + c.refresh_token_margin_mn)
    ∧ ((refresh_token now newExp c).1 = false →
        (refresh_token now newExp c).2 = c) := by
  cases htok : c.token with
  | none => simp [refresh_token, tokenNeedsRefresh, htok]
  | some t =>
    by_cases hlt : t.expiration < now + c.refresh_token_margin_mn
    · simp [refresh_token, tokenNeedsRefresh, htok, hlt]
    · simp [refresh_token, tokenNeedsRefresh, htok, hlt]

/-- A connector holding margin 5, no token and no datastore handle. -/
def connFresh : EumdacConnector := ⟨5, none, none, 0⟩

/-- Witness for C1 at the concrete fresh connector. -/
theorem refresh_token_iff_witness :
    ((refresh_token 0 100 connFresh).1 = true ↔
      connFresh.token = none ∨ ∃ t, connFresh.token = some t ∧
        t.expiration < 0 + connFresh.refresh_token_margin_mn)
    ∧ ((refresh_token 0 100 connFresh).1 = false →
        (refresh_token 0 100 connFresh).2 = connFresh) :=
  refresh_token_iff 0 100 connFresh

/-! ## Helper lemmas on `refresh_token` and `datastore` -/

theorem refresh_token_false_eq (now newExp : Int) (c : EumdacConnector)
    (h : tokenNeedsRefresh now c = false) : refresh_token now newExp c = (false, c) := by
  simp [refresh_token, h]

theorem refresh_token_true_eq (now newExp : Int) (c : EumdacConnector)
    (h : tokenNeedsRefresh now c = true) :
    refresh_token now newExp c =
      (true, { c with token := some ⟨newExp, c.nextId⟩, nextId := c.nextId + 1 }) := by
  simp [refresh_token, h]

theorem datastore_not_refresh (now newExp : Int) (c : EumdacConnector) (ds : DataStore)
    (h1 : tokenNeedsRefresh now c = false) (h2 : c.datastoreH = some ds) :
    datastore now newExp c = (ds, c) := by
  unfold datastore
  rw [refresh_token_false_eq now newExp c h1]
  simp [h2]

theorem datastore_refresh (now newExp : Int) (c : EumdacConnector)
    (h1 : tokenNeedsRefresh now c = true) :
    datastore now newExp c =
      (⟨c.nextId, c.nextId + 1⟩,
       { refresh_token_margin_mn := c.refresh_token_margin_mn,
         token := some ⟨newExp, c.nextId⟩,
         datastoreH := some ⟨c.nextId, c.nextId + 1⟩,
         nextId := c.nextId + 1 + 1 }) := by
  unfold datastore
  rw [refresh_token_true_eq now newExp c h1]
  simp

theorem datastore_none_handle (now newExp : Int) (c : EumdacConnector) (t : AccessToken)
    (h1 : tokenNeedsRefresh now c = false) (h2 : c.datastoreH = none)
    (h3 : c.token = some t) :
    datastore now newExp c =
      (⟨t.mintId, c.nextId⟩,
       { c with datastoreH := some ⟨t.mintId, c.nextId⟩, nextId := c.nextId + 1 }) := by
  unfold datastore
  rw [refresh_token_false_eq now newExp c h1]
  simp [h2, h3]

theorem datastore_handle_cached (now newExp : Int) (c : EumdacConnector) :
    (datastore now newExp c).2.datastoreH = some (datastore now newExp c).1 := by
  by_cases h1 : tokenNeedsRefresh now c = true
  · rw [datastore_refresh now newExp c h1]
  · cases h2 : c.datastoreH with
    | none =>
      cases h3 : c.token with
      | none => simp [tokenNeedsRefresh, h3] at h1
      | some t =>
        rw [datastore_none_handle now newExp c t (by simpa using h1) h2 h3]
    | some ds =>
      rw [datastore_not_refresh now newExp c ds (by simpa using h1) h2]
      exact h2

theorem datastore_handle_fresh (now newExp : Int) (c : EumdacConnector)
    (hinv : ∀ ds, c.datastoreH = some ds → ds.handleId < c.nextId) :
    (datastore now newExp c).1.handleId < (datastore now newExp c).2.nextId := by
  by_cases h1 : tokenNeedsRefresh now c = true
  · rw [datastore_refresh now newExp c h1]
    simp
  · cases h2 : c.datastoreH with
    | none =>
      cases h3 : c.token with
      | none => simp [tokenNeedsRefresh, h3] at h1
      | some t =>
        rw [datastore_none_handle now newExp c t (by simpa using h1) h2 h3]
        simp
    | some ds =>
      rw [datastore_not_refresh now newExp c ds (by simpa using h1) h2]
      exact hinv ds h2

/-! ## C5: catalog-handle caching and rebuilding -/

/-- C5: two consecutive `datastore` accesses with no intervening token
refresh return the same handle instance and leave the state unchanged; an
access that triggers a refresh (forced expiration) returns a new, distinct
handle bound to the freshly minted token. The handle produced by a call is
always the one cached in the connector. -/
theorem datastore_caching (n1 e1 n2 e2 : Int) (c : EumdacConnector)
    (hinv : ∀ ds, c.datastoreH = some ds → ds.handleId < c.nextId) :
    ((datastore n1 e1 c).2.datastoreH = some (datastore n1 e1 c).1)
    ∧ (tokenNeedsRefresh n2 (datastore n1 e1 c).2 = false →
        (datastore n2 e2 (datastore n1 e1 c).2).1 = (datastore n1 e1 c).1
        ∧ (datastore n2 e2 (datastore n1 e1 c).2).2 = (datastore n1 e1 c).2)
    ∧ (tokenNeedsRefresh n2 (datastore n1 e1 c).2 = true →
        (datastore n2 e2 (datastore n1 e1 c).2).1 ≠ (datastore n1 e1 c).1
        ∧ ∃ t, (datastore n2 e2 (datastore n1 e1 c).2).2.token = some t
             ∧ (datastore n2 e2 (datastore n1 e1 c).2).1.boundTokenId = t.mintId) := by
  refine ⟨datastore_handle_cached n1 e1 c, ?_, ?_⟩
  · intro h
    rw [datastore_not_refresh n2 e2 _ _ h (datastore_handle_cached n1 e1 c)]
    exact ⟨rfl, rfl⟩
  · intro h
    have hfresh := datastore_handle_fresh n1 e1 c hinv
    rw [datastore_refresh n2 e2 _ h]
    refine ⟨?_, ⟨⟨e2, (datastore n1 e1 c).2.nextId⟩, rfl, rfl⟩⟩
    intro heq
    have hh := congrArg DataStore.handleId heq
    simp at hh
    omega

/-- Witness for C5 at the fresh connector, first access at time 0, second
access at time 99 (forcing expiration of the token minted with
expiration 100). -/
theorem datastore_caching_witness :
    ((datastore 0 100 connFresh).2.datastoreH = some (datastore 0 100 connFresh).1)
    ∧ (tokenNeedsRefresh 99 (datastore 0 100 connFresh).2 = false →
        (datastore 99 200 (datastore 0 100 connFresh).2).1 = (datastore 0 100 connFresh).1
        ∧ (datastore 99 200 (datastore 0 100 connFresh).2).2 = (datastore 0 100 connFresh).2)
    ∧ (tokenNeedsRefresh 99 (datastore 0 100 connFresh).2 = true →
        (datastore 99 200 (datastore 0 100 connFresh).2).1 ≠ (datastore 0 100 connFresh).1
        ∧ ∃ t, (datastore 99 200 (datastore 0 100 connFresh).2).2.token = some t
             ∧ (datastore 99 200 (datastore 0 100 connFresh).2).1.boundTokenId = t.mintId) :=
  datastore_caching 0 100 99 200 connFresh (by intro ds h; simp [connFresh] at h)

/-! ## ZarrProcessor: partitioned-store ingestion

A NetCDF dataset is abstracted to the list of its values along the
configured index dimension (the only content the ordering and
concatenation logic inspects); `xr.open_dataset` is an environment
`String → List Int` from file path to dataset. A `zcollection`
collection on disk is recorded by its base directory, axis and partition
handler. -/

/-- An on-disk `zcollection` collection: the arguments
`zcollection.create_collection` was given. -/
structure ZCollection where
  partition_base_dir : String
  axis : String
  partition_handler : String
deriving Repr, DecidableEq

/-- The local filesystem's set of existing collections. -/
abbrev Disk := List ZCollection

/-- The state of a `ZarrProcessor` instance: constructor arguments plus the
private `_collection` cache. -/
structure ZarrProcessor where
  zarr_collection_path : String
  partition_handler : String
  index_dimension : String
  _collection : Option ZCollection
deriving Repr, DecidableEq

/-- The read-only `collection` property: returns `_collection`. -/
def ZarrProcessor.collection (p : ZarrProcessor) : Option ZCollection :=
  p._collection

/-- Whether `_open_or_create_collection` opened an existing collection or
created a new one. -/
inductive CollectionOp where
  | openedExisting
  | createdNew
deriving Repr, DecidableEq

/-- `zcollection.open_collection(path, mode="w")`: returns the collection
stored at `path`, or `none` (the `ValueError` branch) when not found. -/
def open_collection (disk : Disk) (path : String) : Option ZCollection :=
  disk.find? (fun c => c.partition_base_dir = path)

/-- Result of `ZarrProcessor._open_or_create_collection`: the returned
collection, the updated processor (with `_collection` cached), the updated
filesystem, and which branch was taken. -/
structure OpenOrCreateResult where
  coll : ZCollection
  proc : ZarrProcessor
  disk : Disk
  op : CollectionOp
deriving Repr, DecidableEq

/-- `ZarrProcessor._open_or_create_collection`: try to open the collection
at `zarr_collection_path`; on the not-found `ValueError`, create it with
the processor's axis (`index_dimension`) and `partition_handler`; in both
cases cache it in `_collection`. -/
def _open_or_create_collection (disk : Disk) (p : ZarrProcessor) : OpenOrCreateResult :=
  match open_collection disk p.zarr_collection_path with
  | some c => ⟨c, { p with _collection := some c }, disk, .openedExisting⟩
  | none =>
      let c : ZCollection := ⟨p.zarr_collection_path, p.index_dimension, p.partition_handler⟩
      ⟨c, { p with _collection := some c }, disk ++ [c], .createdNew⟩

/-- The observable events of one `netcdf_2_zarr` call, in program order. -/
inductive IngestEvent where
  | clusterStart
  | openFile (path : String)
  | insertStep (axisValues : List Int)
deriving Repr, DecidableEq

/-- Outcome of one `netcdf_2_zarr` call: events performed in order, the
error raised (if any), and the dataset handed to `collection.insert`
(its axis values), if the call got that far. -/
structure IngestRun where
  events : List IngestEvent
  err : Option String
  inserted : Option (List Int)
deriving Repr, DecidableEq

/-- `ZarrProcessor.netcdf_2_zarr`: start the local dask cluster, reject an
empty file list with `ValueError`, open every file, concatenate along the
index dimension (`xr.concat`), sort ascending by it (`sortby`), and insert
the combined dataset into the opened-or-created collection. -/
def netcdf_2_zarr (openDataset : String → List Int) (netcdf_file_paths : List String) :
    IngestRun :=
  let ev0 := [IngestEvent.clusterStart]
  if netcdf_file_paths = [] then
    { events := ev0, err := some "ValueError: netcdf_file_paths cannot be empty",
      inserted := none }
  else
    let xr_ds_list := netcdf_file_paths.map openDataset
    let combined_data := xr_ds_list.flatten
    let combined_sorted := combined_data.mergeSort (· ≤ ·)
    { events := ev0 ++ netcdf_file_paths.map IngestEvent.openFile
               ++ [IngestEvent.insertStep combined_sorted],
      err := none,
      inserted := some combined_sorted }

/-- Environment for the end-to-end scenario: two files whose axis values
are `[3,1,2]` and `[5,4]`. -/
def twoFileEnv : String → List Int :=
  fun p => if p = "f1" then [3, 1, 2] else [5, 4]

/-! ## C2: pre-insert dataset is sorted along the axis dimension -/

/-- C2: for every non-empty input list, the combined dataset handed to
`collection.insert` is sorted ascending along the index dimension; for the
two files with axis values `[3,1,2]` and `[5,4]` the pre-insert sequence is
`[1,2,3,4,5]`. -/
theorem netcdf_2_zarr_sorted (openDataset : String → List Int) (paths : List String)
    (h : paths ≠ []) :
    (∃ zds, (netcdf_2_zarr openDataset paths).inserted = some zds
        ∧ List.Sorted (· ≤ ·) zds)
    ∧ (netcdf_2_zarr twoFileEnv ["f1", "f2"]).inserted = some [1, 2, 3, 4, 5] := by
  constructor
  · refine ⟨((paths.map openDataset).flatten).mergeSort (· ≤ ·), ?_, ?_⟩
    · simp [netcdf_2_zarr, h]
    · exact List.sorted_mergeSort' _
  · simp only [netcdf_2_zarr, twoFileEnv]
    norm_num
    rw [List.mergeSort_eq_insertionSort]
    decide

/-- Witness for C2 at the two concrete files. -/
theorem netcdf_2_zarr_sorted_witness :
    (∃ zds, (netcdf_2_zarr twoFileEnv ["f1", "f2"]).inserted = some zds
        ∧ List.Sorted (· ≤ ·) zds)
    ∧ (netcdf_2_zarr twoFileEnv ["f1", "f2"]).inserted = some [1, 2, 3, 4, 5] :=
  netcdf_2_zarr_sorted twoFileEnv ["f1", "f2"] (by simp)

/-! ## C6: empty ingest input rejected before any file is opened -/

/-- C6: `netcdf_2_zarr []` raises `ValueError`, performs no file open, and
hands nothing to the insert step. -/
theorem netcdf_2_zarr_empty_rejected (openDataset : String → List Int) :
    (netcdf_2_zarr openDataset []).err
        = some "ValueError: netcdf_file_paths cannot be empty"
    ∧ (∀ p, IngestEvent.openFile p ∉ (netcdf_2_zarr openDataset []).events)
    ∧ (netcdf_2_zarr openDataset []).inserted = none := by
  refine ⟨rfl, ?_, rfl⟩
  intro p
  simp [netcdf_2_zarr]

/-! ## C7: collection lifecycle (create once, then open; cached handle) -/

/-- The collection `create_collection` builds from a processor's
constructor arguments. -/
def createdColl (p : ZarrProcessor) : ZCollection :=
  ⟨p.zarr_collection_path, p.index_dimension, p.partition_handler⟩

/-- C7: on a fresh base path the collection is created with the
processor's axis dimension and partition scheme and cached in
`_collection` (exposed read-only by the `collection` property); a second
call on the resulting state opens the existing collection instead of
re-creating it, and yields the same on-disk collection. -/
theorem open_or_create_lifecycle (disk : Disk) (p : ZarrProcessor)
    (hfresh : open_collection disk p.zarr_collection_path = none) :
    (_open_or_create_collection disk p).op = CollectionOp.createdNew
    ∧ (_open_or_create_collection disk p).coll.axis = p.index_dimension
    ∧ (_open_or_create_collection disk p).coll.partition_handler = p.partition_handler
    ∧ (_open_or_create_collection disk p).proc._collection
        = some (_open_or_create_collection disk p).coll
    ∧ ((_open_or_create_collection disk p).proc).collection
        = some (_open_or_create_collection disk p).coll
    ∧ (_open_or_create_collection (_open_or_create_collection disk p).disk
        (_open_or_create_collection disk p).proc).op = CollectionOp.openedExisting
    ∧ (_open_or_create_collection (_open_or_create_collection disk p).disk
        (_open_or_create_collection disk p).proc).coll
        = (_open_or_create_collection disk p).coll := by
  have h1 : _open_or_create_collection disk p =
      ⟨createdColl p, { p with _collection := some (createdColl p) },
       disk ++ [createdColl p], CollectionOp.createdNew⟩ := by
    simp [_open_or_create_collection, hfresh, createdColl]
  have h2 : open_collection (disk ++ [createdColl p]) p.zarr_collection_path
      = some (createdColl p) := by
    have hf : disk.find? (fun c => c.partition_base_dir = p.zarr_collection_path)
        = none := hfresh
    simp [open_collection, List.find?_append, hf, createdColl]
  rw [h1]
  refine ⟨rfl, rfl, rfl, rfl, rfl, ?_, ?_⟩
  · simp [_open_or_create_collection, h2]
  · simp [_open_or_create_collection, h2]

/-- A processor over a fresh path, month-partitioned along `time_01`. -/
def procFresh : ZarrProcessor := ⟨"/tmp/sen3_sral", "Date(time_01, M)", "time_01", none⟩

/-- Witness for C7 at the fresh processor and an empty filesystem. -/
theorem open_or_create_lifecycle_witness :
    (_open_or_create_collection [] procFresh).op = CollectionOp.createdNew
    ∧ (_open_or_create_collection [] procFresh).coll.axis = procFresh.index_dimension
    ∧ (_open_or_create_collection [] procFresh).coll.partition_handler
        = procFresh.partition_handler
    ∧ (_open_or_create_collection [] procFresh).proc._collection
        = some (_open_or_create_collection [] procFresh).coll
    ∧ ((_open_or_create_collection [] procFresh).proc).collection
        = some (_open_or_create_collection [] procFresh).coll
    ∧ (_open_or_create_collection (_open_or_create_collection [] procFresh).disk
        (_open_or_create_collection [] procFresh).proc).op = CollectionOp.openedExisting
    ∧ (_open_or_create_collection (_open_or_create_collection [] procFresh).disk
        (_open_or_create_collection [] procFresh).proc).coll
        = (_open_or_create_collection [] procFresh).coll :=
  open_or_create_lifecycle [] procFresh (by simp [open_collection])

/-! ## Acquisition pipeline

`_unzip_product` is modelled on the archive's name list: the body iterates
over `zip_ref.namelist()` and extracts exactly the entries passing the
loop's filter. `download_products` submits one `_process_product` task per
product id to the dask worker pool; completion order is modelled by an
explicit permutation of the task indices, and the per-product network
fetches are counted. -/

/-- `EumdacConnector._unzip_product`, restricted to its observable effect:
the archive entries written to disk. The source loop extracts `file` iff
`file.startswith(product_id)`. -/
def _unzip_product (namelist : List String) (product_id : String) : List String :=
  namelist.filter (fun file => str_startswith file product_id)

/-- The observable events of `_process_product` for one product, in program
order. -/
inductive AcqEvent where
  | downloadArchive (zip_path : String)
  | extractAttempt (zip_path : String)
  | removeZip (zip_path : String)
deriving Repr, DecidableEq

/-- `EumdacConnector._process_product`: download the archive, unzip it,
then `_remove_zip`. The extraction step may raise (`extraction_ok = false`,
e.g. an unreadable archive); the source has no try/finally around it, so
control falls out of the method on such an error. Returns the events
performed in order, and the error raised, if any. -/
def _process_product (zip_path : String) (extraction_ok : Bool) :
    List AcqEvent × Option String :=
  if extraction_ok then
    ([AcqEvent.downloadArchive zip_path, AcqEvent.extractAttempt zip_path,
      AcqEvent.removeZip zip_path], none)
  else
    ([AcqEvent.downloadArchive zip_path, AcqEvent.extractAttempt zip_path],
     some "ExtractionError")

/-- `EumdacConnector.download_products`: make the download dir, build one
delayed `_process_product` task per product id, let the worker pool
complete them in an arbitrary order (`execOrder`, a permutation of the task
indices), and return `os.path.join(download_dir, product_id)` for each
product id of the input, in input order. The second component counts the
per-product network fetches the pool performed. -/
def download_products (collection_id : String) (product_ids : List String)
    (download_dir : String) (execOrder : List Nat) : List String × Nat :=
  let products_batch := product_ids
  let delayed_tasks := products_batch.map (fun product => (collection_id, product, download_dir))
  let completed := execOrder.filterMap (fun i => delayed_tasks[i]?)
  let downloaded_folders := products_batch.map (fun pid => path_join download_dir pid)
  (downloaded_folders, completed.length)

theorem length_filterMap_getElem (l : List (String × String × String)) (ord : List Nat)
    (h : ∀ i ∈ ord, i < l.length) :
    (ord.filterMap (fun i => l[i]?)).length = ord.length := by
  induction ord with
  | nil => simp
  | cons a t ih =>
    have ha : a < l.length := h a (by simp)
    rw [List.filterMap_cons]
    rw [List.getElem?_eq_getElem ha]
    simp only [List.length_cons]
    rw [ih (fun i hi => h i (by simp [hi]))]

/-! ## C4: folder list is input-ordered and completion-order independent -/

/-- C4: for any completion order of the worker pool, `download_products`
returns one folder per input product id, in input order, each equal to
`download_dir/product_id`; the empty input yields an empty result with no
network fetches. -/
theorem download_products_spec (collection_id download_dir : String)
    (product_ids : List String) (execOrder : List Nat)
    (hord : execOrder.Perm (List.range product_ids.length)) :
    (download_products collection_id product_ids download_dir execOrder).1
        = product_ids.map (path_join download_dir)
    ∧ (download_products collection_id product_ids download_dir execOrder).1.length
        = product_ids.length
    ∧ (download_products collection_id product_ids download_dir execOrder).2
        = product_ids.length
    ∧ (product_ids = [] →
        download_products collection_id product_ids download_dir execOrder = ([], 0)) := by
  have hlt : ∀ i ∈ execOrder, i <
      (product_ids.map (fun product => (collection_id, product, download_dir))).length := by
    intro i hi
    have := hord.mem_iff.mp hi
    simp only [List.mem_range] at this
    simpa using this
  have hlen : (execOrder.filterMap
      (fun i => (product_ids.map (fun product => (collection_id, product, download_dir)))[i]?)).length
      = execOrder.length := length_filterMap_getElem _ _ hlt
  have hord_len : execOrder.length = product_ids.length := by
    simpa using hord.length_eq
  refine ⟨rfl, by simp [download_products], ?_, ?_⟩
  · simp only [download_products]
    rw [hlen, hord_len]
  · intro hnil
    subst hnil
    have : execOrder = [] := by simpa using hord
    subst this
    rfl

/-- Witness for C4: two products completed out of order. -/
theorem download_products_spec_witness :
    (download_products "EO:EUM:DAT:0415" ["p1", "p2"] "/tmp/products" [1, 0]).1
        = ["p1", "p2"].map (path_join "/tmp/products")
    ∧ (download_products "EO:EUM:DAT:0415" ["p1", "p2"] "/tmp/products" [1, 0]).1.length
        = (["p1", "p2"] : List String).length
    ∧ (download_products "EO:EUM:DAT:0415" ["p1", "p2"] "/tmp/products" [1, 0]).2
        = (["p1", "p2"] : List String).length
    ∧ ((["p1", "p2"] : List String) = [] →
        download_products "EO:EUM:DAT:0415" ["p1", "p2"] "/tmp/products" [1, 0] = ([], 0)) :=
  download_products_spec "EO:EUM:DAT:0415" "/tmp/products" ["p1", "p2"] [1, 0] (by decide)

/-! ## C3: extraction filter

The specification (and the repository's own test suite and task entry
point, which pass a `measurements_filename` argument) require an entry to
be extracted only when its name both starts with the product id and
contains the measurement filename. The source body of `_unzip_product`
filters on the product-id prefix alone. -/

/-- C3: evaluating the source filter at an archive holding one entry that
is prefixed by the product id but does not contain the measurement
filename: the entry is extracted anyway, and a non-prefixed entry holding
the measurement filename is skipped. -/
theorem unzip_product_ignores_measurement_filename :
    _unzip_product
        ["product1/other.txt", "other_product/reduced_measurement.nc"] "product1"
      = ["product1/other.txt"]
    ∧ str_contains "product1/other.txt" "reduced_measurement.nc" = false := by
  constructor
  · decide
  · decide

/-! ## C8: archive removal after extraction -/

/-- C8 counterexample: when the extraction step raises, `_remove_zip` is
never reached — the archive is not deleted, contradicting "removed whether
the extraction step succeeds or fails". -/
theorem process_product_keeps_zip_on_failure :
    AcqEvent.extractAttempt "file.zip" ∈ (_process_product "file.zip" false).1
    ∧ AcqEvent.removeZip "file.zip" ∉ (_process_product "file.zip" false).1
    ∧ (_process_product "file.zip" false).2 = some "ExtractionError" := by
  refine ⟨by decide, by decide, rfl⟩

/-- C8 (amended): `_process_product` deletes the downloaded archive exactly
when the extraction step completes without raising; on an extraction
error the archive file is left behind. -/
theorem process_product_remove_iff_success (zip_path : String) (extraction_ok : Bool) :
    (AcqEvent.removeZip zip_path ∈ (_process_product zip_path extraction_ok).1
      ↔ extraction_ok = true)
    ∧ ((_process_product zip_path extraction_ok).2 = none ↔ extraction_ok = true) := by
  cases extraction_ok <;> simp [_process_product]

/-! ## Credential loading (C9)

`configparser.RawConfigParser` state: an ini file is a list of sections,
each a header plus key/value entries. `config.read` of a missing file
silently yields an empty configuration; `config.get` raises
`NoSectionError`/`NoOptionError` (the `CredentialError` taxonomy of the
spec) when the section or option is absent. -/

/-- One section of an `.ini` file. -/
structure IniSection where
  header : String
  entries : List (String × String)
deriving Repr, DecidableEq

/-- An `.ini` file's contents. -/
abbrev IniFile := List IniSection

/-- `configparser.RawConfigParser.read`: a missing file (`none`) leaves the
configuration empty. -/
def config_read (file : Option IniFile) : IniFile := file.getD []

/-- `config.get(sectionName, key)`. -/
def config_get (cfg : IniFile) (sectionName key : String) : Except String String :=
  match cfg.find? (fun s => s.header = sectionName) with
  | none => Except.error ("CredentialError: No section: " ++ sectionName)
  | some s =>
      match s.entries.find? (fun kv => kv.1 = key) with
      | none => Except.error ("CredentialError: No option: " ++ key)
      | some kv => Except.ok kv.2

/-- `EumdacConnector.load_credentials`: read the profile file and fetch
`consumer_key` and `consumer_secret` from the `myprofile` section. -/
def load_credentials (file : Option IniFile) : Except String (String × String) :=
  let config := config_read file
  match config_get config "myprofile" "consumer_key" with
  | Except.error e => Except.error e
  | Except.ok k =>
      match config_get config "myprofile" "consumer_secret" with
      | Except.error e => Except.error e
      | Except.ok s => Except.ok (k, s)

/-- `EumdacConnector.__init__`: load credentials, then refresh the token
(the token exchange with the remote API). The second component counts the
token-exchange network calls performed. -/
def connector_init (file : Option IniFile) (margin now newExp : Int) :
    Except String EumdacConnector × Nat :=
  match load_credentials file with
  | Except.error e => (Except.error e, 0)
  | Except.ok _ =>
      let c0 : EumdacConnector := ⟨margin, none, none, 0⟩
      (Except.ok (refresh_token now newExp c0).2, 1)

/-! ## C9: missing credentials fail before any network call -/

/-- C9: when the profile file is missing or lacks a required field,
session construction propagates the credential error and performs zero
token-exchange network calls; in particular a missing file errors. -/
theorem connector_init_no_network (file : Option IniFile) (margin now newExp : Int)
    (msg : String) (h : load_credentials file = Except.error msg) :
    connector_init file margin now newExp = (Except.error msg, 0)
    ∧ load_credentials (none : Option IniFile)
        = Except.error "CredentialError: No section: myprofile" := by
  constructor
  · simp [connector_init, h]
  · rfl

/-- Witness for C9 at the missing profile file. -/
theorem connector_init_no_network_witness :
    connector_init none 5 0 100 =
        (Except.error "CredentialError: No section: myprofile", 0)
    ∧ load_credentials (none : Option IniFile)
        = Except.error "CredentialError: No section: myprofile" :=
  connector_init_no_network none 5 0 100 "CredentialError: No section: myprofile" rfl

/-! ## SingletonMeta (C10) -/

/-- The `SingletonMeta._instances` registry for one class, together with a
count of how many times the class initializer has run. -/
structure SingletonRegistry (α : Type) where
  inst : Option α
  init_runs : Nat
deriving Repr, DecidableEq

/-- `SingletonMeta.__call__`: construct (running the initializer on the
given arguments) only when no instance is registered; otherwise return the
registered instance untouched, ignoring the arguments. -/
def singleton_call {α β : Type} (initializer : β → α) (args : β)
    (r : SingletonRegistry α) : α × SingletonRegistry α :=
  match r.inst with
  | none =>
      let instance0 := initializer args
      (instance0, ⟨some instance0, r.init_runs + 1⟩)
  | some i => (i, r)

/-! ## C10: constructions after the first return the first instance -/

/-- C10: after a first construction, every later construction — with any,
possibly different, arguments — returns the very instance created first,
leaves the registry (hence the instance's state) unchanged, and does not
run the initializer again. -/
theorem singleton_second_call {α β : Type} (initializer : β → α) (a1 a2 : β) :
    (singleton_call initializer a2 (singleton_call initializer a1 ⟨none, 0⟩).2).1
        = (singleton_call initializer a1 (⟨none, 0⟩ : SingletonRegistry α)).1
    ∧ (singleton_call initializer a2 (singleton_call initializer a1 ⟨none, 0⟩).2).2
        = (singleton_call initializer a1 (⟨none, 0⟩ : SingletonRegistry α)).2
    ∧ (singleton_call initializer a1 (⟨none, 0⟩ : SingletonRegistry α)).2.init_runs = 1
    ∧ (singleton_call initializer a1 (⟨none, 0⟩ : SingletonRegistry α)).2.inst
        = some (singleton_call initializer a1 (⟨none, 0⟩ : SingletonRegistry α)).1 := by
  simp [singleton_call]
